import Mathlib

/-!
Shallow embedding of the input-mapping core of the drill repository.

Sources embedded below:
* src/lib/lib_window/src/input.rs   (ButtonCode, ButtonEvent, DeviceEvent)
* src/lib/lib_input/src/button.rs   (Button, ButtonBindings, ButtonHandlerState)
* src/lib/lib_input/src/value.rs    (Value, ValueHandlerState)
* src/lib/lib_input/src/lib.rs      (Mapper, MapperContext)
* src/input/value.rs                (older iteration: ValueHandler)
* src/src/input/button.rs           (older iteration: ButtonHandler)

Conventions of the embedding:
* Rust f32 scalars are modelled as exact rationals; every claim settled here
  only depends on comparisons with large margins, where f32 rounding cannot
  change the outcome.
* Rust u32 bitmask state is modelled as a natural number kept below 2 to the
  power 32; the bitwise complement of a single-bit mask m is 4294967295 - m.
* Rust u8 casts are modelled with an explicit modulus 256, and the saturating
  truncating f32-to-u8 cast with floor, max and min.
* HashMap built by collect over an enumerated HashSet iteration is modelled as
  an association list with first-match lookup (a HashSet iteration yields no
  duplicate keys; the iteration order is abstracted as the list order).
-/

namespace Drill

/-- Keyboard key codes come from the external winit crate; the embedding keeps
them abstract as natural-number codes with decidable equality. -/
structure KeyCode where
  code : Nat
deriving DecidableEq, Repr

/-- Gamepad button codes, from src/lib/lib_window/src/input.rs. -/
inductive ButtonCode where
  | leftStickRight
  | leftStickLeft
  | leftStickUp
  | leftStickDown
  | rightStickRight
  | rightStickLeft
  | rightStickUp
  | rightStickDown
  | dPadUp
  | dPadDown
  | dPadLeft
  | dPadRight
  | south
  | east
  | north
  | west
  | leftTrigger
  | leftTrigger2
  | rightTrigger
  | rightTrigger2
  | start
  | select
  | leftThumb
  | rightThumb
  | c
  | z
  | mode
  | unknown
deriving DecidableEq, Repr

/-- Physical key of a winit KeyEvent: either a known key code or an
unidentified key (the Rust code ignores the latter). -/
inductive PhysicalKey where
  | codeKey (key : KeyCode)
  | unidentified
deriving DecidableEq, Repr

/-- Key press state of a winit KeyEvent; the Rust code reads it only through
state.is_pressed(). -/
structure KeyEvent where
  physical_key : PhysicalKey
  is_pressed : Bool
deriving DecidableEq, Repr

/-- Gamepad button event, from src/lib/lib_window/src/input.rs. The f32 value
is modelled as a rational. -/
structure ButtonEvent where
  button : ButtonCode
  value : ℚ
deriving DecidableEq, Repr

/-- Device events, from src/lib/lib_window/src/input.rs. -/
inductive DeviceEvent where
  | connected
  | disconnected
  | key (e : KeyEvent)
  | button (e : ButtonEvent)
deriving DecidableEq, Repr

/-- Two-dimensional rational vector standing in for lib_math Vec2 / glam Vec2. -/
structure Vec2 where
  x : ℚ
  y : ℚ
deriving DecidableEq, Repr

namespace Vec2

def dot (a b : Vec2) : ℚ := a.x * b.x + a.y * b.y

def normSq (v : Vec2) : ℚ := v.x * v.x + v.y * v.y

def RIGHT : Vec2 := ⟨1, 0⟩

def LEFT : Vec2 := ⟨-1, 0⟩

def UP : Vec2 := ⟨0, 1⟩

def DOWN : Vec2 := ⟨0, -1⟩

def ZERO : Vec2 := ⟨0, 0⟩

end Vec2

/-- Modelled from the spec: lib_math (the crate providing FVec2, try_normalize
and dot) is not under src/. The spec rule is that the stick direction is the
difference vector normalized to unit length, or the zero vector when its
magnitude is zero, and that leaf controls compare its dot product with a
cardinal axis against a threshold. Since normalization needs a square root,
the embedding keeps the unnormalized vector and decides the comparison
dot (normalizeOrZero v) a ≥ t exactly, square-root free; the theorem
dirDotGe_iff below proves this Boolean equal to the real-number comparison. -/
def dirDotGe (v a : Vec2) (t : ℚ) : Bool :=
  if v.normSq = 0 then decide (t ≤ 0)
  else if 0 ≤ v.dot a then
    if t ≤ 0 then true else decide (t * t * v.normSq ≤ v.dot a * v.dot a)
  else
    if 0 ≤ t then false else decide (v.dot a * v.dot a ≤ t * t * v.normSq)

/-- Modelled from the spec: the proposition that d is the real normalization
of v to unit length, or zero when the magnitude of v is zero. -/
def IsNormOrZero (v : Vec2) (d : ℝ × ℝ) : Prop :=
  if v.normSq = 0 then d = (0, 0)
  else
    d = ((v.x : ℝ) / Real.sqrt ((v.normSq : ℚ) : ℝ),
         (v.y : ℝ) / Real.sqrt ((v.normSq : ℚ) : ℝ))

/-- Real dot product of a real direction with a rational axis vector. -/
def rdot (d : ℝ × ℝ) (a : Vec2) : ℝ := d.1 * (a.x : ℝ) + d.2 * (a.y : ℝ)

/-- Context passed down to every leaf control on every event, from
src/lib/lib_input/src/lib.rs. The Rust struct stores the normalized stick
directions; the embedding stores the unnormalized difference vectors and reads
them only through dirDotGe (see the comment on dirDotGe). -/
structure MapperContext where
  left_stick_dir : Vec2
  right_stick_dir : Vec2
deriving DecidableEq, Repr

/-- Association-list lookup standing in for HashMap get: first match wins
(HashMap collect from a HashSet iteration never sees a duplicate key). -/
def hmGet {α : Type} [DecidableEq α] : List (α × Nat) → α → Option Nat
  | [], _ => none
  | (k, v) :: rest, a => if k = a then some v else hmGet rest a

/-- Index assignment built by iter().enumerate().map(...|(i, k)| (k, cast i)),
starting at offset off; the as-u8 cast is the explicit modulus 256. -/
def idxList {α : Type} : List α → Nat → List (α × Nat)
  | [], _ => []
  | a :: rest, off => (a, off % 256) :: idxList rest (off + 1)

/-- Binding set of one control, from src/lib/lib_input/src/button.rs: a HashSet
of key codes and a HashSet of gamepad button codes, modelled as lists whose
order stands for the (arbitrary but fixed) hash-set iteration order. -/
structure ButtonBindings where
  keys : List KeyCode
  buttons : List ButtonCode
deriving DecidableEq, Repr

/-- Per-frame snapshot of a Button control, from src/lib/lib_input/src/button.rs. -/
structure Button where
  is_held : Bool
  is_pressed : Bool
  is_released : Bool
deriving DecidableEq, Repr

/-- Mapper state of a Button control, from src/lib/lib_input/src/button.rs.
held_bindings is the u32 bitmask, kept below 2 to the power 32. -/
structure ButtonHandlerState where
  key_indices : List (KeyCode × Nat)
  button_indices : List (ButtonCode × Nat)
  held_bindings : Nat
  is_pressed : Bool
  was_held : Bool
deriving DecidableEq, Repr

namespace Button

/-- Button new_mapper, src/lib/lib_input/src/button.rs lines 36-58: keys are
enumerated from 0, gamepad buttons continue at offset keys.len(). -/
def new_mapper (bindings : ButtonBindings) : ButtonHandlerState :=
  { key_indices := idxList bindings.keys 0
    button_indices := idxList bindings.buttons bindings.keys.length
    held_bindings := 0
    is_pressed := false
    was_held := false }

/-- Maximal u32 value, the bitwise complement base for a single-bit mask. -/
def U32_MAX : Nat := 4294967295

/-- Held decision for one gamepad button event, src/lib/lib_input/src/button.rs
lines 86-135: plain buttons threshold the value at 0.5; the eight stick
pseudo-buttons additionally require the stick-direction dot-product test with
MIN_DOT = 0.3827. -/
def buttonHeld (code : ButtonCode) (value : ℚ) (ctx : MapperContext) : Bool :=
  let MIN_DOT : ℚ := 3827 / 10000
  match code with
  | .leftStickRight => decide ((1:ℚ)/2 ≤ value) && dirDotGe ctx.left_stick_dir Vec2.RIGHT MIN_DOT
  | .leftStickLeft => decide ((1:ℚ)/2 ≤ value) && dirDotGe ctx.left_stick_dir Vec2.LEFT MIN_DOT
  | .leftStickUp => decide ((1:ℚ)/2 ≤ value) && dirDotGe ctx.left_stick_dir Vec2.UP MIN_DOT
  | .leftStickDown => decide ((1:ℚ)/2 ≤ value) && dirDotGe ctx.left_stick_dir Vec2.DOWN MIN_DOT
  | .rightStickRight => decide ((1:ℚ)/2 ≤ value) && dirDotGe ctx.right_stick_dir Vec2.RIGHT MIN_DOT
  | .rightStickLeft => decide ((1:ℚ)/2 ≤ value) && dirDotGe ctx.right_stick_dir Vec2.LEFT MIN_DOT
  | .rightStickUp => decide ((1:ℚ)/2 ≤ value) && dirDotGe ctx.right_stick_dir Vec2.UP MIN_DOT
  | .rightStickDown => decide ((1:ℚ)/2 ≤ value) && dirDotGe ctx.right_stick_dir Vec2.DOWN MIN_DOT
  | _ => decide ((1:ℚ)/2 ≤ value)

/-- Tail of Button mapper_event, src/lib/lib_input/src/button.rs lines 146-155:
rising-edge detection ORs into the latched is_pressed flag, then the bit of the
binding is set to is_held. The u32 shift 1 << idx masks the shift amount to
idx % 32 (release semantics); the complement of the mask is U32_MAX - mask. -/
def applyBinding (h : ButtonHandlerState) (binding_idx : Nat) (is_held : Bool) :
    ButtonHandlerState :=
  let binding_mask : Nat := 2 ^ (binding_idx % 32)
  let binding_was_held : Bool := decide (h.held_bindings &&& binding_mask ≠ 0)
  { h with
    is_pressed := h.is_pressed || (is_held && !binding_was_held)
    held_bindings :=
      (h.held_bindings &&& (U32_MAX - binding_mask)) |||
        (binding_mask * if is_held then 1 else 0) }

/-- Button mapper_event, src/lib/lib_input/src/button.rs lines 60-155. -/
def mapper_event (h : ButtonHandlerState) (event : DeviceEvent) (ctx : MapperContext) :
    ButtonHandlerState :=
  match event with
  | .connected => h
  | .disconnected => { h with held_bindings := 0 }
  | .key ke =>
    match ke.physical_key with
    | .unidentified => h
    | .codeKey keycode =>
      match hmGet h.key_indices keycode with
      | none => h
      | some idx => applyBinding h idx ke.is_pressed
  | .button be =>
    match hmGet h.button_indices be.button with
    | none => h
    | some idx => applyBinding h idx (buttonHeld be.button be.value ctx)

/-- Button map, src/lib/lib_input/src/button.rs lines 157-168. The Rust method
mutates the handler in place and returns the snapshot; the embedding returns
the pair (snapshot, new handler state). -/
def map (h : ButtonHandlerState) : Button × ButtonHandlerState :=
  let result : Button :=
    { is_held := decide (h.held_bindings ≠ 0)
      is_pressed := h.is_pressed
      is_released := h.was_held && decide (h.held_bindings = 0) }
  (result, { h with was_held := result.is_held, is_pressed := false })

end Button

/-- Scalar Value control snapshot, from src/lib/lib_input/src/value.rs. -/
structure Value where
  val : ℚ
deriving DecidableEq, Repr

/-- Mapper state of a Value control, from src/lib/lib_input/src/value.rs.
bindings_values is the [u8; 32] byte array, modelled as a list of 32 naturals
each below 256. -/
structure ValueHandlerState where
  key_indices : List (KeyCode × Nat)
  button_indices : List (ButtonCode × Nat)
  bindings_values : List Nat
deriving DecidableEq, Repr

/-- Saturating truncating cast of an f32 to u8, the Rust as-cast: truncate
toward zero and clamp into 0..255. -/
def asU8 (q : ℚ) : Nat := min 255 (Int.toNat ⌊q⌋)

namespace Value

/-- Value new_mapper, src/lib/lib_input/src/value.rs lines 18-38: the same
index construction as Button new_mapper (buttons offset by keys.len()). -/
def new_mapper (bindings : ButtonBindings) : ValueHandlerState :=
  { key_indices := idxList bindings.keys 0
    button_indices := idxList bindings.buttons bindings.keys.length
    bindings_values := List.replicate 32 0 }

/-- Value mapper_event, src/lib/lib_input/src/value.rs lines 40-74: key events
store 255 (the u8 bitwise complement of 0) on press and 0 on release; gamepad
button events store the as-u8 cast of value * 255; Disconnected zeroes every
slot. The array write at a binding index is modelled with List.set, which is
the in-bounds behavior (indices stay below 32 for at most 32 bindings; larger
configurations would panic in Rust and are out of the embedding). -/
def mapper_event (h : ValueHandlerState) (event : DeviceEvent) (_ctx : MapperContext) :
    ValueHandlerState :=
  match event with
  | .connected => h
  | .disconnected => { h with bindings_values := List.replicate 32 0 }
  | .key ke =>
    match ke.physical_key with
    | .unidentified => h
    | .codeKey keycode =>
      match hmGet h.key_indices keycode with
      | none => h
      | some idx =>
        { h with
          bindings_values := h.bindings_values.set idx (if ke.is_pressed then 255 else 0) }
  | .button be =>
    match hmGet h.button_indices be.button with
    | none => h
    | some idx =>
      { h with bindings_values := h.bindings_values.set idx (asU8 (be.value * 255)) }

/-- Value map, src/lib/lib_input/src/value.rs lines 76-84: the sum of
slot / 255 over all slots, with no clamp and no state change. The Rust method
takes the handler mutably but never writes it; the embedding returns the pair
(snapshot, unchanged handler state). -/
def map (h : ValueHandlerState) : Value × ValueHandlerState :=
  (⟨(h.bindings_values.map (fun x => (x : ℚ) / 255)).sum⟩, h)

end Value

/- Older iteration of the value handler, src/input/value.rs. Its state has
the same shape as ValueHandlerState; note that its constructor enumerates the
gamepad buttons from 0 with no offset by keys.len(). -/
namespace ValueHandler

/-- ValueHandler new, src/input/value.rs lines 21-43: keys enumerated from 0
and buttons also enumerated from 0 (no offset). -/
def new (bindings : ButtonBindings) : ValueHandlerState :=
  { key_indices := idxList bindings.keys 0
    button_indices := idxList bindings.buttons 0
    bindings_values := List.replicate 32 0 }

/-- ValueHandler next_state, src/input/value.rs lines 74-82: the sum of
slot / 255 over all slots, clamped with min 1.0; no state change. -/
def next_state (h : ValueHandlerState) : Value × ValueHandlerState :=
  (⟨min ((h.bindings_values.map (fun x => (x : ℚ) / 255)).sum) 1⟩, h)

end ValueHandler

/- Older iteration of the button handler, src/src/input/button.rs. Its state
has the same shape as ButtonHandlerState. -/
namespace ButtonHandler

/-- ButtonHandler new, src/src/input/button.rs lines 33-57: keys enumerated
from 0 and buttons also enumerated from 0 (no offset by keys.len()). -/
def new (bindings : ButtonBindings) : ButtonHandlerState :=
  { key_indices := idxList bindings.keys 0
    button_indices := idxList bindings.buttons 0
    held_bindings := 0
    is_pressed := false
    was_held := false }

end ButtonHandler

/-- Stateful mapper engine, src/lib/lib_input/src/lib.rs lines 27-37: the
per-control mapper state plus the eight running stick magnitudes. The Rust
struct is generic over the InputMapped control type; the embedding is generic
over the mapper-state type, with the per-control event function passed
explicitly where the trait method would be resolved. -/
structure Mapper (σ : Type) where
  state : σ
  left_stick_right : ℚ
  left_stick_left : ℚ
  left_stick_up : ℚ
  left_stick_down : ℚ
  right_stick_right : ℚ
  right_stick_left : ℚ
  right_stick_up : ℚ
  right_stick_down : ℚ

namespace Mapper

/-- Mapper new, src/lib/lib_input/src/lib.rs lines 47-59: all eight stick
magnitudes start at zero. -/
def new {σ : Type} (st : σ) : Mapper σ :=
  { state := st
    left_stick_right := 0
    left_stick_left := 0
    left_stick_up := 0
    left_stick_down := 0
    right_stick_right := 0
    right_stick_left := 0
    right_stick_up := 0
    right_stick_down := 0 }

/-- Magnitude update of Mapper event, src/lib/lib_input/src/lib.rs lines 62-75:
a gamepad button event naming one of the eight stick pseudo-buttons overwrites
the corresponding magnitude; every other event leaves the magnitudes alone. -/
def updateMags {σ : Type} (m : Mapper σ) (event : DeviceEvent) : Mapper σ :=
  match event with
  | .button be =>
    match be.button with
    | .leftStickRight => { m with left_stick_right := be.value }
    | .leftStickLeft => { m with left_stick_left := be.value }
    | .leftStickUp => { m with left_stick_up := be.value }
    | .leftStickDown => { m with left_stick_down := be.value }
    | .rightStickRight => { m with right_stick_right := be.value }
    | .rightStickLeft => { m with right_stick_left := be.value }
    | .rightStickUp => { m with right_stick_up := be.value }
    | .rightStickDown => { m with right_stick_down := be.value }
    | _ => m
  | _ => m

/-- Context construction of Mapper event, src/lib/lib_input/src/lib.rs lines
77-95: the difference vectors (right - left, up - down) of both sticks. The
Rust code normalizes them here (try_normalize, zero on failure); the embedding
keeps the raw vectors and reads them only through dirDotGe, see dirDotGe. -/
def ctxOf {σ : Type} (m : Mapper σ) : MapperContext :=
  { left_stick_dir := ⟨m.left_stick_right - m.left_stick_left,
                       m.left_stick_up - m.left_stick_down⟩
    right_stick_dir := ⟨m.right_stick_right - m.right_stick_left,
                        m.right_stick_up - m.right_stick_down⟩ }

/-- Mapper event, src/lib/lib_input/src/lib.rs lines 61-96: update the stick
magnitudes first, then build the context from the updated magnitudes, then
forward the same event plus that context to the leaf event function. -/
def event {σ : Type} (ev : σ → DeviceEvent → MapperContext → σ)
    (m : Mapper σ) (e : DeviceEvent) : Mapper σ :=
  let m1 := updateMags m e
  { m1 with state := ev m1.state e (ctxOf m1) }

/-- Mapper map, src/lib/lib_input/src/lib.rs lines 98-100. -/
def mapWith {σ T : Type} (mp : σ → T × σ) (m : Mapper σ) : T × Mapper σ :=
  let r := mp m.state
  (r.1, { m with state := r.2 })

end Mapper

/-! Theorems. Shared helper lemmas come first, then one theorem per claim,
with counterexamples and witnesses where needed. -/

/-- Lookup in an index assignment built from offset off yields an index of the
form (off + j) % 256 for some position j below the list length. -/
theorem hmGet_idxList {α : Type} [DecidableEq α] (l : List α) (off : Nat) (k : α) (i : Nat)
    (h : hmGet (idxList l off) k = some i) :
    ∃ j, j < l.length ∧ i = (off + j) % 256 := by
  induction l generalizing off with
  | nil => simp [idxList, hmGet] at h
  | cons a rest ih =>
    simp only [idxList, hmGet] at h
    by_cases hak : a = k
    · rw [if_pos hak] at h
      have h5 : off % 256 = i := by simpa using h
      exact ⟨0, by simp, by omega⟩
    · rw [if_neg hak] at h
      obtain ⟨j, hj, hje⟩ := ih (off + 1) h
      exact ⟨j + 1, by simpa using hj, by omega⟩

/-- Clearing the own bit of a single-bit u32 mask: the bitwise and of the mask
with its u32 complement is zero. -/
theorem pow2_land_comp : ∀ i, i < 32 → 2 ^ i &&& (4294967295 - 2 ^ i) = 0 := by
  decide

/-- Soundness of the square-root-free direction test: for any d that is the
normalization of v to unit length (or zero when v has zero magnitude), the
Boolean dirDotGe v a t decides exactly the real comparison t ≤ d ⬝ a. -/
theorem dirDotGe_iff (v a : Vec2) (t : ℚ) (d : ℝ × ℝ) (hd : IsNormOrZero v d) :
    dirDotGe v a t = true ↔ (t : ℝ) ≤ rdot d a := by
  unfold IsNormOrZero at hd
  unfold dirDotGe
  by_cases hv : v.normSq = 0
  · rw [if_pos hv] at hd
    rw [if_pos hv, hd]
    simp only [rdot]
    norm_num
  · rw [if_neg hv] at hd
    rw [if_neg hv]
    have hS0 : (0 : ℚ) < v.normSq := by
      rcases lt_or_eq_of_le (add_nonneg (mul_self_nonneg v.x) (mul_self_nonneg v.y)) with h | h
      · exact h
      · exact absurd h.symm hv
    have hSR : (0 : ℝ) < ((v.normSq : ℚ) : ℝ) := by exact_mod_cast hS0
    have hsq : (0 : ℝ) < Real.sqrt ((v.normSq : ℚ) : ℝ) := Real.sqrt_pos.mpr hSR
    have hss : Real.sqrt ((v.normSq : ℚ) : ℝ) * Real.sqrt ((v.normSq : ℚ) : ℝ)
        = ((v.normSq : ℚ) : ℝ) := Real.mul_self_sqrt hSR.le
    have hr : rdot d a = ((v.dot a : ℚ) : ℝ) / Real.sqrt ((v.normSq : ℚ) : ℝ) := by
      rw [hd]
      simp only [rdot, Vec2.dot]
      push_cast
      ring
    rw [hr, le_div_iff₀ hsq]
    by_cases hD : 0 ≤ v.dot a
    · have hDR : (0 : ℝ) ≤ ((v.dot a : ℚ) : ℝ) := by exact_mod_cast hD
      rw [if_pos hD]
      by_cases ht : t ≤ 0
      · rw [if_pos ht]
        have h1 : ((t : ℚ) : ℝ) ≤ 0 := by exact_mod_cast ht
        have h2 : ((t : ℚ) : ℝ) * Real.sqrt ((v.normSq : ℚ) : ℝ) ≤ 0 := by
          have h3 := mul_le_mul_of_nonneg_right h1 (Real.sqrt_nonneg ((v.normSq : ℚ) : ℝ))
          simpa using h3
        exact iff_of_true rfl (le_trans h2 hDR)
      · rw [if_neg ht, decide_eq_true_iff]
        have htR : (0 : ℝ) < ((t : ℚ) : ℝ) := by
          have h4 : (0 : ℚ) < t := lt_of_not_le ht
          exact_mod_cast h4
        have hts : 0 ≤ ((t : ℚ) : ℝ) * Real.sqrt ((v.normSq : ℚ) : ℝ) :=
          mul_nonneg htR.le (Real.sqrt_nonneg _)
        rw [mul_self_le_mul_self_iff hts hDR]
        constructor
        · intro h
          calc ((t:ℚ):ℝ) * Real.sqrt ((v.normSq : ℚ) : ℝ) * (((t:ℚ):ℝ) * Real.sqrt ((v.normSq : ℚ) : ℝ))
              = (((t * t * v.normSq : ℚ)) : ℝ) := by rw [mul_mul_mul_comm, hss]; push_cast; ring
            _ ≤ (((v.dot a * v.dot a : ℚ)) : ℝ) := by exact_mod_cast h
            _ = ((v.dot a : ℚ) : ℝ) * ((v.dot a : ℚ) : ℝ) := by push_cast; ring
        · intro h
          have h2 : (((t * t * v.normSq : ℚ)) : ℝ) ≤ (((v.dot a * v.dot a : ℚ)) : ℝ) := by
            calc (((t * t * v.normSq : ℚ)) : ℝ)
                = ((t:ℚ):ℝ) * Real.sqrt ((v.normSq : ℚ) : ℝ) * (((t:ℚ):ℝ) * Real.sqrt ((v.normSq : ℚ) : ℝ)) := by
                  rw [mul_mul_mul_comm, hss]; push_cast; ring
              _ ≤ ((v.dot a : ℚ) : ℝ) * ((v.dot a : ℚ) : ℝ) := h
              _ = (((v.dot a * v.dot a : ℚ)) : ℝ) := by push_cast; ring
          exact_mod_cast h2
    · have hDR : ((v.dot a : ℚ) : ℝ) < 0 := by
        have h4 : v.dot a < 0 := lt_of_not_le hD
        exact_mod_cast h4
      rw [if_neg hD]
      by_cases ht : 0 ≤ t
      · rw [if_pos ht]
        have htR : (0 : ℝ) ≤ ((t : ℚ) : ℝ) := by exact_mod_cast ht
        exact iff_of_false (by decide)
          (not_le.mpr (lt_of_lt_of_le hDR (mul_nonneg htR (Real.sqrt_nonneg _))))
      · rw [if_neg ht, decide_eq_true_iff]
        have htR : ((t : ℚ) : ℝ) < 0 := by
          have h4 : t < 0 := lt_of_not_le ht
          exact_mod_cast h4
        have h1 : (0:ℝ) ≤ -((v.dot a : ℚ) : ℝ) := by linarith
        have h2 : (0:ℝ) ≤ -((t : ℚ) : ℝ) * Real.sqrt ((v.normSq : ℚ) : ℝ) :=
          mul_nonneg (by linarith) (Real.sqrt_nonneg _)
        have key : (((t:ℚ):ℝ) * Real.sqrt ((v.normSq : ℚ) : ℝ) ≤ ((v.dot a : ℚ) : ℝ))
            ↔ (-((v.dot a : ℚ) : ℝ) ≤ -((t:ℚ):ℝ) * Real.sqrt ((v.normSq : ℚ) : ℝ)) := by
          constructor
          · intro h; linarith
          · intro h; linarith
        rw [key, mul_self_le_mul_self_iff h1 h2]
        constructor
        · intro h
          calc -((v.dot a : ℚ) : ℝ) * -((v.dot a : ℚ) : ℝ)
              = (((v.dot a * v.dot a : ℚ)) : ℝ) := by push_cast; ring
            _ ≤ (((t * t * v.normSq : ℚ)) : ℝ) := by exact_mod_cast h
            _ = -((t:ℚ):ℝ) * Real.sqrt ((v.normSq : ℚ) : ℝ) * (-((t:ℚ):ℝ) * Real.sqrt ((v.normSq : ℚ) : ℝ)) := by
                rw [mul_mul_mul_comm, hss]; push_cast; ring
        · intro h
          have h3 : (((v.dot a * v.dot a : ℚ)) : ℝ) ≤ (((t * t * v.normSq : ℚ)) : ℝ) := by
            calc (((v.dot a * v.dot a : ℚ)) : ℝ)
                = -((v.dot a : ℚ) : ℝ) * -((v.dot a : ℚ) : ℝ) := by push_cast; ring
              _ ≤ -((t:ℚ):ℝ) * Real.sqrt ((v.normSq : ℚ) : ℝ) * (-((t:ℚ):ℝ) * Real.sqrt ((v.normSq : ℚ) : ℝ)) := h
              _ = (((t * t * v.normSq : ℚ)) : ℝ) := by rw [mul_mul_mul_comm, hss]; push_cast; ring
          exact_mod_cast h3

/-- Claim C1. The claim states that the scalar returned by the Value map
operation never exceeds 1.0 because the per-slot sum is clamped. The current
library code (src/lib/lib_input/src/value.rs) has no clamp: with a Value
control bound to two keys and both keys pressed, map returns 2, exceeding 1.
The older iteration ValueHandler next_state (src/input/value.rs) clamps the
same accumulated state to 1, showing the clamp is the intended behavior. -/
theorem C1_value_map_exceeds_one :
    (Value.map
      (Value.mapper_event
        (Value.mapper_event (Value.new_mapper ⟨[⟨0⟩, ⟨1⟩], []⟩)
          (.key ⟨.codeKey ⟨0⟩, true⟩) ⟨Vec2.ZERO, Vec2.ZERO⟩)
        (.key ⟨.codeKey ⟨1⟩, true⟩) ⟨Vec2.ZERO, Vec2.ZERO⟩)).1.val = 2
    ∧ ¬((Value.map
      (Value.mapper_event
        (Value.mapper_event (Value.new_mapper ⟨[⟨0⟩, ⟨1⟩], []⟩)
          (.key ⟨.codeKey ⟨0⟩, true⟩) ⟨Vec2.ZERO, Vec2.ZERO⟩)
        (.key ⟨.codeKey ⟨1⟩, true⟩) ⟨Vec2.ZERO, Vec2.ZERO⟩)).1.val ≤ 1)
    ∧ (ValueHandler.next_state
      (Value.mapper_event
        (Value.mapper_event (Value.new_mapper ⟨[⟨0⟩, ⟨1⟩], []⟩)
          (.key ⟨.codeKey ⟨0⟩, true⟩) ⟨Vec2.ZERO, Vec2.ZERO⟩)
        (.key ⟨.codeKey ⟨1⟩, true⟩) ⟨Vec2.ZERO, Vec2.ZERO⟩)).1.val = 1 := by
  norm_num [Value.map, Value.mapper_event, Value.new_mapper, ValueHandler.next_state,
    hmGet, idxList, List.replicate]

/-- Claim C2, counterexample. The claim states that pressing and releasing a
bound key twice before a map call yields is_released = true on that call.
Starting from a freshly constructed Button control (no slot held, and the
previous map state was not held), the four events followed by map yield
is_held = false, is_pressed = true and is_released = false, refuting the
is_released part. -/
theorem C2_counterexample :
    (Button.map
      (Button.mapper_event
        (Button.mapper_event
          (Button.mapper_event
            (Button.mapper_event (Button.new_mapper ⟨[⟨0⟩], []⟩)
              (.key ⟨.codeKey ⟨0⟩, true⟩) ⟨Vec2.ZERO, Vec2.ZERO⟩)
            (.key ⟨.codeKey ⟨0⟩, false⟩) ⟨Vec2.ZERO, Vec2.ZERO⟩)
          (.key ⟨.codeKey ⟨0⟩, true⟩) ⟨Vec2.ZERO, Vec2.ZERO⟩)
        (.key ⟨.codeKey ⟨0⟩, false⟩) ⟨Vec2.ZERO, Vec2.ZERO⟩)).1 =
      ⟨false, true, false⟩ := by
  decide

/-- Claim C2, amended. Starting from any Button state with no slot held, a
bound key pressed, released, pressed and released again before the next map
call makes that map call return is_pressed = true, is_held = false (the final
raw state), and is_released equal to the stored was_held flag, that is true
exactly when the previous map call observed the control held. -/
theorem C2_double_toggle (s : ButtonHandlerState) (kc : KeyCode) (idx : Nat)
    (c1 c2 c3 c4 : MapperContext)
    (hk : hmGet s.key_indices kc = some idx)
    (hheld : s.held_bindings = 0) :
    (Button.map
      (Button.mapper_event
        (Button.mapper_event
          (Button.mapper_event
            (Button.mapper_event s (.key ⟨.codeKey kc, true⟩) c1)
            (.key ⟨.codeKey kc, false⟩) c2)
          (.key ⟨.codeKey kc, true⟩) c3)
        (.key ⟨.codeKey kc, false⟩) c4)).1 =
      ⟨false, true, s.was_held⟩ := by
  have hlt : idx % 32 < 32 := Nat.mod_lt _ (by norm_num)
  have hmask := pow2_land_comp (idx % 32) hlt
  have h1 : Button.mapper_event s (.key ⟨.codeKey kc, true⟩) c1 =
      { s with held_bindings := 2 ^ (idx % 32), is_pressed := true } := by
    simp [Button.mapper_event, hk, Button.applyBinding, hheld]
  have h2 : Button.mapper_event { s with held_bindings := 2 ^ (idx % 32), is_pressed := true }
      (.key ⟨.codeKey kc, false⟩) c2 =
      { s with held_bindings := 0, is_pressed := true } := by
    simp [Button.mapper_event, hk, Button.applyBinding, Button.U32_MAX, hmask]
  have h3 : Button.mapper_event { s with held_bindings := 0, is_pressed := true }
      (.key ⟨.codeKey kc, true⟩) c3 =
      { s with held_bindings := 2 ^ (idx % 32), is_pressed := true } := by
    simp [Button.mapper_event, hk, Button.applyBinding]
  have h4 : Button.mapper_event { s with held_bindings := 2 ^ (idx % 32), is_pressed := true }
      (.key ⟨.codeKey kc, false⟩) c4 =
      { s with held_bindings := 0, is_pressed := true } := by
    simp [Button.mapper_event, hk, Button.applyBinding, Button.U32_MAX, hmask]
  rw [h1, h2, h3, h4]
  simp [Button.map]

/-- Claim C2, witness for the amended theorem at a freshly constructed Button
control bound to one key: the double toggle yields is_held = false,
is_pressed = true and is_released = false. -/
theorem C2_double_toggle_witness :
    hmGet (Button.new_mapper ⟨[⟨0⟩], []⟩).key_indices ⟨0⟩ = some 0
    ∧ (Button.new_mapper ⟨[⟨0⟩], []⟩).held_bindings = 0
    ∧ (Button.map
      (Button.mapper_event
        (Button.mapper_event
          (Button.mapper_event
            (Button.mapper_event (Button.new_mapper ⟨[⟨0⟩], []⟩)
              (.key ⟨.codeKey ⟨0⟩, true⟩) ⟨Vec2.ZERO, Vec2.ZERO⟩)
            (.key ⟨.codeKey ⟨0⟩, false⟩) ⟨Vec2.ZERO, Vec2.ZERO⟩)
          (.key ⟨.codeKey ⟨0⟩, true⟩) ⟨Vec2.ZERO, Vec2.ZERO⟩)
        (.key ⟨.codeKey ⟨0⟩, false⟩) ⟨Vec2.ZERO, Vec2.ZERO⟩)).1 =
      ⟨false, true, false⟩ :=
  ⟨by decide, rfl,
    C2_double_toggle (Button.new_mapper ⟨[⟨0⟩], []⟩) ⟨0⟩ 0 _ _ _ _ (by decide) rfl⟩

/-- Claim C3, counterexample. The claim states that for every cited
constructor a key and a gamepad button bound to the same control never share
a slot index. In the older iterations (ButtonHandler new in
src/src/input/button.rs and ValueHandler new in src/input/value.rs) the
gamepad buttons are enumerated from 0 with no offset, so a control bound to
one key and one gamepad button assigns slot index 0 to both. -/
theorem C3_counterexample :
    hmGet (ButtonHandler.new ⟨[⟨0⟩], [.south]⟩).key_indices ⟨0⟩ = some 0
    ∧ hmGet (ButtonHandler.new ⟨[⟨0⟩], [.south]⟩).button_indices .south = some 0
    ∧ hmGet (ValueHandler.new ⟨[⟨0⟩], [.south]⟩).key_indices ⟨0⟩ = some 0
    ∧ hmGet (ValueHandler.new ⟨[⟨0⟩], [.south]⟩).button_indices .south = some 0 := by
  decide

/-- Claim C3, amended. In the lib_input constructors (Button new_mapper, and
Value new_mapper which builds the identical index lists), for configurations
of at most 256 total bindings the bound keys occupy the low indices
0..k-1 and the bound gamepad buttons occupy indices k, k+1, ..., so a key and
a gamepad button bound to the same control are never assigned the same slot
index; the older ButtonHandler new and ValueHandler new iterations number the
gamepad buttons from 0 instead and do collide. -/
theorem C3_slot_layout (b : ButtonBindings) (kc : KeyCode) (bc : ButtonCode) (ki bi : Nat)
    (hcap : b.keys.length + b.buttons.length ≤ 256)
    (hk : hmGet (Button.new_mapper b).key_indices kc = some ki)
    (hb : hmGet (Button.new_mapper b).button_indices bc = some bi) :
    (Value.new_mapper b).key_indices = (Button.new_mapper b).key_indices
    ∧ (Value.new_mapper b).button_indices = (Button.new_mapper b).button_indices
    ∧ ki < b.keys.length
    ∧ b.keys.length ≤ bi ∧ bi < b.keys.length + b.buttons.length
    ∧ ki ≠ bi := by
  simp only [Button.new_mapper] at hk hb
  obtain ⟨j, hj, hje⟩ := hmGet_idxList _ _ _ _ hk
  obtain ⟨j2, hj2, hje2⟩ := hmGet_idxList _ _ _ _ hb
  have hki : ki = j := by omega
  have hbi : bi = b.keys.length + j2 := by omega
  exact ⟨rfl, rfl, by omega, by omega, by omega, by omega⟩

/-- Claim C3, witness for the amended theorem: a control bound to one key and
one gamepad button under lib_input gets key index 0 and button index 1. -/
theorem C3_slot_layout_witness :
    (⟨[⟨0⟩], [.south]⟩ : ButtonBindings).keys.length
        + (⟨[⟨0⟩], [.south]⟩ : ButtonBindings).buttons.length ≤ 256
    ∧ hmGet (Button.new_mapper ⟨[⟨0⟩], [.south]⟩).key_indices ⟨0⟩ = some 0
    ∧ hmGet (Button.new_mapper ⟨[⟨0⟩], [.south]⟩).button_indices .south = some 1
    ∧ ((Value.new_mapper ⟨[⟨0⟩], [.south]⟩).key_indices
        = (Button.new_mapper ⟨[⟨0⟩], [.south]⟩).key_indices
      ∧ (Value.new_mapper ⟨[⟨0⟩], [.south]⟩).button_indices
        = (Button.new_mapper ⟨[⟨0⟩], [.south]⟩).button_indices
      ∧ 0 < (⟨[⟨0⟩], [.south]⟩ : ButtonBindings).keys.length
      ∧ (⟨[⟨0⟩], [.south]⟩ : ButtonBindings).keys.length ≤ 1
      ∧ 1 < (⟨[⟨0⟩], [.south]⟩ : ButtonBindings).keys.length
          + (⟨[⟨0⟩], [.south]⟩ : ButtonBindings).buttons.length
      ∧ 0 ≠ 1) :=
  ⟨by decide, by decide, by decide,
    C3_slot_layout ⟨[⟨0⟩], [.south]⟩ ⟨0⟩ .south 0 1 (by decide) (by decide) (by decide)⟩

/-- Claim C4. With one Button control bound to the LeftStickRight
pseudo-button and another bound to LeftStickUp, pushing the left stick 10
degrees off horizontal at full magnitude (the two synthetic axis events carry
values 0.985 and 0.174) and dispatching both events through the Mapper leaves
the LeftStickRight control held and the LeftStickUp control not held: held
needs both event value at least 0.5 and direction dot product at least
0.3827, and the normalized direction has dot about 0.985 with RIGHT but only
about 0.174 with UP. -/
theorem C4_stick_cone :
    (Button.map (Mapper.event Button.mapper_event
      (Mapper.event Button.mapper_event
        (Mapper.new (Button.new_mapper ⟨[], [.leftStickRight]⟩))
        (.button ⟨.leftStickRight, 197/200⟩))
      (.button ⟨.leftStickUp, 87/500⟩)).state).1.is_held = true
    ∧ (Button.map (Mapper.event Button.mapper_event
      (Mapper.event Button.mapper_event
        (Mapper.new (Button.new_mapper ⟨[], [.leftStickUp]⟩))
        (.button ⟨.leftStickRight, 197/200⟩))
      (.button ⟨.leftStickUp, 87/500⟩)).state).1.is_held = false := by
  norm_num [Button.map, Mapper.event, Mapper.updateMags, Mapper.ctxOf, Mapper.new,
    Button.new_mapper, Button.mapper_event, Button.applyBinding, Button.buttonHeld,
    idxList, hmGet, dirDotGe, Vec2.normSq, Vec2.dot, Vec2.RIGHT, Vec2.UP, Button.U32_MAX]
  decide

/-- Claim C5. For a Button control bound only to gamepad buttons that the
previous map call reported held (was_held = true) and that is currently held,
a Disconnected event followed by map yields is_held = false and
is_released = true: the disconnect clears all held slot bits instantly. -/
theorem C5_disconnect_releases (h : ButtonHandlerState) (ctx : MapperContext)
    (hkeys : h.key_indices = []) (hheld : h.held_bindings ≠ 0) (hwas : h.was_held = true) :
    (Button.map (Button.mapper_event h .disconnected ctx)).1.is_held = false
    ∧ (Button.map (Button.mapper_event h .disconnected ctx)).1.is_released = true := by
  simp [Button.mapper_event, Button.map, hwas]

/-- Claim C5, witness at a concrete state bound to one gamepad button, held
and previously reported held. -/
theorem C5_disconnect_releases_witness :
    ((⟨[], [(.south, 0)], 1, false, true⟩ : ButtonHandlerState).key_indices = []
      ∧ (⟨[], [(.south, 0)], 1, false, true⟩ : ButtonHandlerState).held_bindings ≠ 0
      ∧ (⟨[], [(.south, 0)], 1, false, true⟩ : ButtonHandlerState).was_held = true)
    ∧ ((Button.map (Button.mapper_event ⟨[], [(.south, 0)], 1, false, true⟩
        .disconnected ⟨Vec2.ZERO, Vec2.ZERO⟩)).1.is_held = false
      ∧ (Button.map (Button.mapper_event ⟨[], [(.south, 0)], 1, false, true⟩
        .disconnected ⟨Vec2.ZERO, Vec2.ZERO⟩)).1.is_released = true) :=
  ⟨⟨rfl, by decide, rfl⟩,
    C5_disconnect_releases ⟨[], [(.south, 0)], 1, false, true⟩ ⟨Vec2.ZERO, Vec2.ZERO⟩
      rfl (by decide) rfl⟩

/-- Claim C6. On every processed event, the Mapper dispatches the leaf event
function with the context built from the already-updated stick magnitudes (the
event's own magnitude write happens first), the context carries the
difference vector (right - left, up - down), and every threshold test a leaf
performs on that context through dirDotGe agrees exactly with the dot product
of the difference vector normalized to unit length (or the zero vector when
the difference has zero magnitude), as the spec's normalize-or-zero rule
demands. -/
theorem C6_context_direction {σ : Type} (ev : σ → DeviceEvent → MapperContext → σ)
    (m : Mapper σ) (e : DeviceEvent) (dL dR : ℝ × ℝ) (a : Vec2) (t : ℚ)
    (hL : IsNormOrZero (Mapper.ctxOf (Mapper.updateMags m e)).left_stick_dir dL)
    (hR : IsNormOrZero (Mapper.ctxOf (Mapper.updateMags m e)).right_stick_dir dR) :
    Mapper.event ev m e =
      { Mapper.updateMags m e with
        state := ev (Mapper.updateMags m e).state e (Mapper.ctxOf (Mapper.updateMags m e)) }
    ∧ (Mapper.ctxOf (Mapper.updateMags m e)).left_stick_dir =
        ⟨(Mapper.updateMags m e).left_stick_right - (Mapper.updateMags m e).left_stick_left,
         (Mapper.updateMags m e).left_stick_up - (Mapper.updateMags m e).left_stick_down⟩
    ∧ (dirDotGe (Mapper.ctxOf (Mapper.updateMags m e)).left_stick_dir a t = true ↔
        (t : ℝ) ≤ rdot dL a)
    ∧ (dirDotGe (Mapper.ctxOf (Mapper.updateMags m e)).right_stick_dir a t = true ↔
        (t : ℝ) ≤ rdot dR a) :=
  ⟨rfl, rfl, dirDotGe_iff _ _ _ _ hL, dirDotGe_iff _ _ _ _ hR⟩

/-- Claim C6, witness at a concrete Mapper over a trivial leaf state: a
LeftStickRight event of value 1 makes the post-update left difference vector
(1, 0), whose normalization is the unit vector (1, 0), while the right stick
stays at the zero vector. -/
theorem C6_context_direction_witness :
    (IsNormOrZero (Mapper.ctxOf (Mapper.updateMags (Mapper.new ())
        (.button ⟨.leftStickRight, 1⟩))).left_stick_dir ((1 : ℝ), (0 : ℝ))
      ∧ IsNormOrZero (Mapper.ctxOf (Mapper.updateMags (Mapper.new ())
        (.button ⟨.leftStickRight, 1⟩))).right_stick_dir ((0 : ℝ), (0 : ℝ)))
    ∧ (Mapper.event (fun s _ _ => s) (Mapper.new ()) (.button ⟨.leftStickRight, 1⟩) =
      { Mapper.updateMags (Mapper.new ()) (.button ⟨.leftStickRight, 1⟩) with
        state := (fun (s : Unit) (_ : DeviceEvent) (_ : MapperContext) => s)
          (Mapper.updateMags (Mapper.new ()) (.button ⟨.leftStickRight, 1⟩)).state
          (.button ⟨.leftStickRight, 1⟩)
          (Mapper.ctxOf (Mapper.updateMags (Mapper.new ()) (.button ⟨.leftStickRight, 1⟩))) }
    ∧ (Mapper.ctxOf (Mapper.updateMags (Mapper.new ())
        (.button ⟨.leftStickRight, 1⟩))).left_stick_dir =
        ⟨(Mapper.updateMags (Mapper.new ()) (.button ⟨.leftStickRight, 1⟩)).left_stick_right
          - (Mapper.updateMags (Mapper.new ()) (.button ⟨.leftStickRight, 1⟩)).left_stick_left,
         (Mapper.updateMags (Mapper.new ()) (.button ⟨.leftStickRight, 1⟩)).left_stick_up
          - (Mapper.updateMags (Mapper.new ()) (.button ⟨.leftStickRight, 1⟩)).left_stick_down⟩
    ∧ (dirDotGe (Mapper.ctxOf (Mapper.updateMags (Mapper.new ())
        (.button ⟨.leftStickRight, 1⟩))).left_stick_dir Vec2.RIGHT (3827/10000) = true ↔
        ((3827/10000 : ℚ) : ℝ) ≤ rdot ((1 : ℝ), (0 : ℝ)) Vec2.RIGHT)
    ∧ (dirDotGe (Mapper.ctxOf (Mapper.updateMags (Mapper.new ())
        (.button ⟨.leftStickRight, 1⟩))).right_stick_dir Vec2.RIGHT (3827/10000) = true ↔
        ((3827/10000 : ℚ) : ℝ) ≤ rdot ((0 : ℝ), (0 : ℝ)) Vec2.RIGHT)) :=
  ⟨⟨by norm_num [IsNormOrZero, Mapper.ctxOf, Mapper.updateMags, Mapper.new, Vec2.normSq],
    by norm_num [IsNormOrZero, Mapper.ctxOf, Mapper.updateMags, Mapper.new, Vec2.normSq]⟩,
    C6_context_direction (fun s _ _ => s) (Mapper.new ()) (.button ⟨.leftStickRight, 1⟩)
      ((1 : ℝ), (0 : ℝ)) ((0 : ℝ), (0 : ℝ)) Vec2.RIGHT (3827/10000)
      (by norm_num [IsNormOrZero, Mapper.ctxOf, Mapper.updateMags, Mapper.new, Vec2.normSq])
      (by norm_num [IsNormOrZero, Mapper.ctxOf, Mapper.updateMags, Mapper.new, Vec2.normSq])⟩

/-- Claim C7. The Value map operation is idempotent and side-effect-free: it
returns the handler state unchanged, so calling it twice with no intervening
event returns the identical value both times and the same state. -/
theorem C7_value_map_idempotent (h : ValueHandlerState) :
    (Value.map h).2 = h ∧ (Value.map ((Value.map h).2)).1 = (Value.map h).1 :=
  ⟨rfl, rfl⟩

/-- Claim C8, counterexample. The claim states that a gamepad button event
with value v stores round(v * 255) in the bound slot. At v = 1/2 the code
stores the truncation 127 (the Rust as-cast truncates toward zero), while
round(127.5) is 128. -/
theorem C8_counterexample :
    (Value.mapper_event ⟨[(⟨0⟩, 0)], [(.south, 1)], List.replicate 32 0⟩
      (.button ⟨.south, 1/2⟩) ⟨Vec2.ZERO, Vec2.ZERO⟩).bindings_values[1]? = some 127
    ∧ round ((1/2 : ℚ) * 255) = 128
    ∧ (127 : ℤ) ≠ 128 := by
  refine ⟨?_, ?_, by decide⟩
  · norm_num [Value.mapper_event, hmGet, asU8]
    rfl
  · norm_num [round_eq]

/-- Claim C8, amended. For a gamepad button event with value v in 0..1 naming
a bound slot of a Value control, the event handler stores the truncation
toward zero of v * 255 (the floor, not the rounding) in that slot's byte,
while a key event stores 255 on press and 0 on release. -/
theorem C8_event_stores (h : ValueHandlerState) (ctx : MapperContext)
    (bc : ButtonCode) (v : ℚ) (bidx : Nat) (kc : KeyCode) (kidx : Nat)
    (hb : hmGet h.button_indices bc = some bidx)
    (hk : hmGet h.key_indices kc = some kidx)
    (hv0 : 0 ≤ v) (hv1 : v ≤ 1) :
    (Value.mapper_event h (.button ⟨bc, v⟩) ctx).bindings_values =
        h.bindings_values.set bidx (Int.toNat ⌊v * 255⌋)
    ∧ (Value.mapper_event h (.key ⟨.codeKey kc, true⟩) ctx).bindings_values =
        h.bindings_values.set kidx 255
    ∧ (Value.mapper_event h (.key ⟨.codeKey kc, false⟩) ctx).bindings_values =
        h.bindings_values.set kidx 0 := by
  have hfl : ⌊v * 255⌋ ≤ 255 := by
    have h2 : v * 255 ≤ 255 := by nlinarith
    calc ⌊v * 255⌋ ≤ ⌊(255 : ℚ)⌋ := Int.floor_le_floor h2
      _ = 255 := by norm_num
  have hmin : min 255 (Int.toNat ⌊v * 255⌋) = Int.toNat ⌊v * 255⌋ := by
    apply min_eq_right
    omega
  refine ⟨?_, ?_, ?_⟩
  · simp [Value.mapper_event, hb, asU8, hmin]
  · simp [Value.mapper_event, hk]
  · simp [Value.mapper_event, hk]

/-- Claim C8, witness for the amended theorem at a state bound to one key
(slot 0) and one gamepad button (slot 1), with event value 1/2. -/
theorem C8_event_stores_witness :
    (hmGet (⟨[(⟨0⟩, 0)], [(.south, 1)], List.replicate 32 0⟩ : ValueHandlerState).button_indices
        .south = some 1
      ∧ hmGet (⟨[(⟨0⟩, 0)], [(.south, 1)], List.replicate 32 0⟩ : ValueHandlerState).key_indices
        ⟨0⟩ = some 0
      ∧ (0 : ℚ) ≤ 1/2 ∧ (1/2 : ℚ) ≤ 1)
    ∧ ((Value.mapper_event ⟨[(⟨0⟩, 0)], [(.south, 1)], List.replicate 32 0⟩
        (.button ⟨.south, 1/2⟩) ⟨Vec2.ZERO, Vec2.ZERO⟩).bindings_values =
        (List.replicate 32 0).set 1 (Int.toNat ⌊(1/2 : ℚ) * 255⌋)
      ∧ (Value.mapper_event ⟨[(⟨0⟩, 0)], [(.south, 1)], List.replicate 32 0⟩
        (.key ⟨.codeKey ⟨0⟩, true⟩) ⟨Vec2.ZERO, Vec2.ZERO⟩).bindings_values =
        (List.replicate 32 0).set 0 255
      ∧ (Value.mapper_event ⟨[(⟨0⟩, 0)], [(.south, 1)], List.replicate 32 0⟩
        (.key ⟨.codeKey ⟨0⟩, false⟩) ⟨Vec2.ZERO, Vec2.ZERO⟩).bindings_values =
        (List.replicate 32 0).set 0 0) :=
  ⟨⟨by decide, by decide, by norm_num, by norm_num⟩,
    C8_event_stores ⟨[(⟨0⟩, 0)], [(.south, 1)], List.replicate 32 0⟩ ⟨Vec2.ZERO, Vec2.ZERO⟩
      .south (1/2) 1 ⟨0⟩ 0 (by decide) (by decide) (by norm_num) (by norm_num)⟩

/-- Claim C9. Every Button snapshot returned by map satisfies the exclusivity
invariant: it never reports the control as both released and held in the same
frame. Proved for every handler state, reachable or not. -/
theorem C9_released_not_held (h : ButtonHandlerState) :
    ((Button.map h).1.is_released && (Button.map h).1.is_held) = false := by
  simp only [Button.map]
  by_cases hh : h.held_bindings = 0
  · simp [hh]
  · simp [hh]

/-- Claim C10. A Disconnected event clears the held slot bits of a Button
control but does not clear the latched is_pressed flag: if a rising edge was
latched since the last map call, a Disconnected event followed by map still
reports is_pressed = true. -/
theorem C10_disconnect_keeps_pressed (h : ButtonHandlerState) (ctx : MapperContext)
    (hp : h.is_pressed = true) :
    (Button.map (Button.mapper_event h .disconnected ctx)).1.is_pressed = true := by
  simp [Button.mapper_event, Button.map, hp]

/-- Claim C10, witness at a concrete state with a latched press: disconnect
then map still reports the press. -/
theorem C10_disconnect_keeps_pressed_witness :
    (⟨[], [(.south, 0)], 1, true, false⟩ : ButtonHandlerState).is_pressed = true
    ∧ (Button.map (Button.mapper_event ⟨[], [(.south, 0)], 1, true, false⟩
        .disconnected ⟨Vec2.ZERO, Vec2.ZERO⟩)).1.is_pressed = true :=
  ⟨rfl,
    C10_disconnect_keeps_pressed ⟨[], [(.south, 0)], 1, true, false⟩
      ⟨Vec2.ZERO, Vec2.ZERO⟩ rfl⟩

end Drill
